import Mathlib

/-!
Shallow embedding of `react-session-hooks`: the shared helpers of
`src/utils.ts` (`calculateNewValue`, `updateStorage`, `setInitialValue`),
the cross-tab storage-event handler, and the two hook variants
(`useLocalState` / `useSessionState`), each in its inline form and in its
refactored form composed from the shared helpers.

Modelling conventions:
- JavaScript runtime values are the inductive `JSVal`; JS loose truthiness
  is the Boolean `truthy`.  Updater functions live in `UpdateReq`, not in
  `JSVal` (a stored value is never a function in this library).
- A throwing function is modelled by returning `none`:
  `serialize : JSVal → Option String`, `deserialize : String → Option JSVal`,
  and an updater callback `JSVal → Option JSVal`.  A `try { … } catch` in
  the source becomes a `match … with | none => …` on the model.
- The storage backend (`localStorage` / `sessionStorage`) is an explicit
  association list `Backend` with `getItem` / `setItem` / `removeItem`.
- `console.warn` is modelled by counting emissions (the `warns` field).
- React's `setStoredValue` / `setvalue` state setter is modelled by the
  `stored` field of the returned record; `setLoading` by `loading`.
-/

namespace ReactSessionHooks

/-- A JavaScript runtime value as this library can observe it:
`null`, `undefined`, booleans, numbers (`nan` kept separate since
`NaN` is falsy), strings, and opaque objects/arrays (always truthy). -/
inductive JSVal where
  | null
  | undef
  | bool (b : Bool)
  | num (n : Int)
  | nan
  | str (s : String)
  | obj (id : Nat)
deriving DecidableEq, Repr

/-- JavaScript loose truthiness: `null`, `undefined`, `false`, `0`, `NaN`
and `""` are falsy; every other value is truthy. -/
def truthy : JSVal → Bool
  | .null => false
  | .undef => false
  | .bool b => b
  | .num n => n != 0
  | .nan => false
  | .str s => s != ""
  | .obj _ => true

/-- The emptiness test of `updateStorage` (utils.ts line 23):
`newValue === null || newValue == undefined || newValue === ""`.
The loose `== undefined` matches both `undefined` and `null`. -/
def isEmptyVal (v : JSVal) : Bool :=
  v == JSVal.null || v == JSVal.undef || v == JSVal.str ""

/-- The argument accepted by an update call: a literal value or an
updater callback (which may throw, modelled by `none`). -/
inductive UpdateReq where
  | fn (callback : JSVal → Option JSVal)
  | val (v : JSVal)

/-- The storage backend: an association list from keys to raw strings. -/
def Backend := List (String × String)

instance : DecidableEq Backend := by
  unfold Backend
  infer_instance

instance : Repr Backend := by
  unfold Backend
  infer_instance

/-- `storage.getItem(key)`: the first record under `key`, if any. -/
def getItem (b : Backend) (k : String) : Option String :=
  match b.find? (fun p => p.1 == k) with
  | some p => some p.2
  | none => none

/-- `storage.removeItem(key)`. -/
def removeItem (b : Backend) (k : String) : Backend :=
  (b : List (String × String)).filter (fun p => p.1 != k)

/-- `storage.setItem(key, s)`. -/
def setItem (b : Backend) (k : String) (s : String) : Backend :=
  (k, s) :: removeItem b k

/-- Result of one write step: the backend afterwards, the in-memory
stored value afterwards, and how many diagnostics were emitted. -/
structure WriteResult where
  backend : Backend
  stored : JSVal
  warns : Nat
deriving DecidableEq, Repr

/-- Result of the initial load: backend afterwards, stored value,
the Boolean the routine returns (`resolved`), and diagnostics emitted. -/
structure InitResult where
  backend : Backend
  stored : JSVal
  resolved : Bool
  warns : Nat
deriving DecidableEq, Repr

/-- `calculateNewValue` (utils.ts lines 3–14).  A function argument is
invoked on the previous value (its exception, if any, propagates: `none`);
a falsy literal becomes `null`; a truthy literal is adopted as-is. -/
def calculateNewValue (value : UpdateReq) (storedValue : JSVal) : Option JSVal :=
  match value with
  | .fn callback => callback storedValue
  | .val v => if truthy v then some v else some JSVal.null

/-- `updateStorage` (utils.ts lines 16–37).  Empty values
(`null`/`undefined`/`""`) remove the key and set the stored value to
`null`; otherwise `serialize` is attempted inside a try: on success the
record is written and the stored value updated, on failure a diagnostic
is emitted and nothing changes. -/
def updateStorage (storage : Backend) (newValue : JSVal) (key : String)
    (stored : JSVal) (serialize : JSVal → Option String) : WriteResult :=
  if isEmptyVal newValue then
    ⟨removeItem storage key, JSVal.null, 0⟩
  else
    match serialize newValue with
    | some s => ⟨setItem storage key s, newValue, 0⟩
    | none => ⟨storage, stored, 1⟩

/-- The fall-through tail of `setInitialValue` (utils.ts lines 58–68):
if a default is provided (`defaultValue !== undefined`) try to serialize
and persist it; on failure warn and fall through to `null`.  `w` counts
diagnostics already emitted before reaching this point. -/
def initDefaultStep (storage : Backend) (key : String) (defaultValue : JSVal)
    (serialize : JSVal → Option String) (w : Nat) : InitResult :=
  if defaultValue ≠ JSVal.undef then
    match serialize defaultValue with
    | some s => ⟨setItem storage key s, defaultValue, true, w⟩
    | none => ⟨storage, JSVal.null, true, w + 1⟩
  else ⟨storage, JSVal.null, true, w⟩

/-- `setInitialValue` (utils.ts lines 39–69).  `if (item)` is a JS
truthiness test on `string | null`, so an empty-string record is treated
exactly like an absent one (no deserialize attempt, no removal). -/
def setInitialValue (storage : Backend) (key : String) (defaultValue : JSVal)
    (deserialize : String → Option JSVal) (serialize : JSVal → Option String) :
    InitResult :=
  match getItem storage key with
  | some item =>
    if item ≠ "" then
      match deserialize item with
      | some v => ⟨storage, v, true, 0⟩
      | none => initDefaultStep (removeItem storage key) key defaultValue serialize 1
    else initDefaultStep storage key defaultValue serialize 0
  | none => initDefaultStep storage key defaultValue serialize 0

/-- A DOM `StorageEvent` as the handler reads it: `key` and `newValue`
are each `string | null`. -/
structure StorageEvent where
  key : Option String
  newValue : Option String
deriving DecidableEq, Repr

/-- `handleStorageChange` (useLocalState.ts lines 157–170, identical to
the inline lines 91–102).  On a matching key the handler evaluates
`event.newValue ? deserialize(event.newValue) : null` inside a try: a
truthy (present, non-empty) raw value is deserialized, a `null` or `""`
raw value maps to `null`; a deserialize exception only warns.  The
handler touches no storage. -/
def handleStorageChange (key : String) (deserialize : String → Option JSVal)
    (stored : JSVal) (event : StorageEvent) : JSVal × Nat :=
  if event.key == some key then
    match event.newValue with
    | some s =>
      if s ≠ "" then
        match deserialize s with
        | some v => (v, 0)
        | none => (stored, 1)
      else (JSVal.null, 0)
    | none => (JSVal.null, 0)
  else (stored, 0)

/-- The refactored `updateValue` (useLocalState.ts lines 179–187 /
part_001 lines 46–54): `calculateNewValue` then `updateStorage`.
`none` means the updater callback threw and its exception propagated
out of the update call to the consumer. -/
def updateValue (value : UpdateReq) (storedValue : JSVal) (storage : Backend)
    (key : String) (serialize : JSVal → Option String) : Option WriteResult :=
  match calculateNewValue value storedValue with
  | some calculatedValue =>
    some (updateStorage storage calculatedValue key storedValue serialize)
  | none => none

/-- The inline `updateValue` (useLocalState.ts lines 63–87 / part_000
lines 62–86), translated directly from its own body rather than from the
helpers: first the "calculate new value" block (a throwing callback
propagates, so the write block never runs), then the "update storage"
block. -/
def updateValueInline (value : UpdateReq) (storedValue : JSVal) (storage : Backend)
    (key : String) (serialize : JSVal → Option String) : Option WriteResult := do
  let newValue ← match value with
    | .fn callback => callback storedValue
    | .val v => pure (if truthy v then v else JSVal.null)
  pure
    (if newValue == JSVal.null || newValue == JSVal.undef || newValue == JSVal.str "" then
      ⟨removeItem storage key, JSVal.null, 0⟩
    else
      match serialize newValue with
      | some s => ⟨setItem storage key s, newValue, 0⟩
      | none => ⟨storage, storedValue, 1⟩)

/-- The inline `setInitialValue` closure (useLocalState.ts lines 34–57 /
part_000 lines 33–56), translated directly from its own body, with the
default fall-through written out at each of its three entry points. -/
def setInitialValueInline (storage : Backend) (key : String) (defaultValue : JSVal)
    (deserialize : String → Option JSVal) (serialize : JSVal → Option String) :
    InitResult :=
  match getItem storage key with
  | some item =>
    if item ≠ "" then
      match deserialize item with
      | some v => ⟨storage, v, true, 0⟩
      | none =>
        let storage := removeItem storage key
        if defaultValue ≠ JSVal.undef then
          match serialize defaultValue with
          | some s => ⟨setItem storage key s, defaultValue, true, 1⟩
          | none => ⟨storage, JSVal.null, true, 2⟩
        else ⟨storage, JSVal.null, true, 1⟩
    else
      if defaultValue ≠ JSVal.undef then
        match serialize defaultValue with
        | some s => ⟨setItem storage key s, defaultValue, true, 0⟩
        | none => ⟨storage, JSVal.null, true, 1⟩
      else ⟨storage, JSVal.null, true, 0⟩
  | none =>
    if defaultValue ≠ JSVal.undef then
      match serialize defaultValue with
      | some s => ⟨setItem storage key s, defaultValue, true, 0⟩
      | none => ⟨storage, JSVal.null, true, 1⟩
    else ⟨storage, JSVal.null, true, 0⟩

/-- The storage-event handler of the inline variant (useLocalState.ts
lines 91–102), textually the same logic as the refactored one. -/
def handleStorageChangeInline (key : String) (deserialize : String → Option JSVal)
    (stored : JSVal) (event : StorageEvent) : JSVal × Nat :=
  if event.key == some key then
    match event.newValue with
    | some s =>
      if s ≠ "" then
        match deserialize s with
        | some v => (v, 0)
        | none => (stored, 1)
      else (JSVal.null, 0)
    | none => (JSVal.null, 0)
  else (stored, 0)

/-- The observable state of one mounted hook instance: the backend, the
current value, the loading flag, and the number of diagnostics emitted. -/
structure HookState where
  backend : Backend
  stored : JSVal
  loading : Bool
  warns : Nat
deriving DecidableEq, Repr

/-- One external stimulus to a mounted hook: an update call or a
cross-context storage event. -/
inductive Action where
  | upd (value : UpdateReq)
  | ev (event : StorageEvent)

/-- Mount of the refactored hooks: run `setInitialValue`, then
`setLoading(!isValueSet)`. -/
def mountComposed (storage : Backend) (key : String) (defaultValue : JSVal)
    (deserialize : String → Option JSVal) (serialize : JSVal → Option String) :
    HookState :=
  let r := setInitialValue storage key defaultValue deserialize serialize
  ⟨r.backend, r.stored, !r.resolved, r.warns⟩

/-- Mount of the inline hooks: run the inline `setInitialValue` closure,
then `setLoading(!isValueSet)`. -/
def mountInline (storage : Backend) (key : String) (defaultValue : JSVal)
    (deserialize : String → Option JSVal) (serialize : JSVal → Option String) :
    HookState :=
  let r := setInitialValueInline storage key defaultValue deserialize serialize
  ⟨r.backend, r.stored, !r.resolved, r.warns⟩

/-- One step of the refactored `useLocalState`: an update call goes
through `calculateNewValue` + `updateStorage` (a throwing updater leaves
the binding state untouched — the exception escapes to the consumer); a
storage event goes through `handleStorageChange`, which never touches
the backend. -/
def stepComposedLocal (key : String) (deserialize : String → Option JSVal)
    (serialize : JSVal → Option String) (st : HookState) (a : Action) : HookState :=
  match a with
  | .upd value =>
    match updateValue value st.stored st.backend key serialize with
    | some w => ⟨w.backend, w.stored, st.loading, st.warns + w.warns⟩
    | none => st
  | .ev event =>
    let r := handleStorageChange key deserialize st.stored event
    ⟨st.backend, r.1, st.loading, st.warns + r.2⟩

/-- One step of the inline `useLocalState`. -/
def stepInlineLocal (key : String) (deserialize : String → Option JSVal)
    (serialize : JSVal → Option String) (st : HookState) (a : Action) : HookState :=
  match a with
  | .upd value =>
    match updateValueInline value st.stored st.backend key serialize with
    | some w => ⟨w.backend, w.stored, st.loading, st.warns + w.warns⟩
    | none => st
  | .ev event =>
    let r := handleStorageChangeInline key deserialize st.stored event
    ⟨st.backend, r.1, st.loading, st.warns + r.2⟩

/-- One step of the refactored `useSessionState` (part_001): no storage
event listener is ever installed, so events leave the state unchanged. -/
def stepComposedSession (key : String) (serialize : JSVal → Option String)
    (st : HookState) (a : Action) : HookState :=
  match a with
  | .upd value =>
    match updateValue value st.stored st.backend key serialize with
    | some w => ⟨w.backend, w.stored, st.loading, st.warns + w.warns⟩
    | none => st
  | .ev _ => st

/-- One step of the inline `useSessionState` (part_000): no listener. -/
def stepInlineSession (key : String) (serialize : JSVal → Option String)
    (st : HookState) (a : Action) : HookState :=
  match a with
  | .upd value =>
    match updateValueInline value st.stored st.backend key serialize with
    | some w => ⟨w.backend, w.stored, st.loading, st.warns + w.warns⟩
    | none => st
  | .ev _ => st

/-- The refactored `useLocalState` over a whole stimulus sequence. -/
def runComposedLocal (storage : Backend) (key : String) (defaultValue : JSVal)
    (deserialize : String → Option JSVal) (serialize : JSVal → Option String)
    (acts : List Action) : HookState :=
  acts.foldl (stepComposedLocal key deserialize serialize)
    (mountComposed storage key defaultValue deserialize serialize)

/-- The inline `useLocalState` over a whole stimulus sequence. -/
def runInlineLocal (storage : Backend) (key : String) (defaultValue : JSVal)
    (deserialize : String → Option JSVal) (serialize : JSVal → Option String)
    (acts : List Action) : HookState :=
  acts.foldl (stepInlineLocal key deserialize serialize)
    (mountInline storage key defaultValue deserialize serialize)

/-- The refactored `useSessionState` over a whole stimulus sequence. -/
def runComposedSession (storage : Backend) (key : String) (defaultValue : JSVal)
    (deserialize : String → Option JSVal) (serialize : JSVal → Option String)
    (acts : List Action) : HookState :=
  acts.foldl (stepComposedSession key serialize)
    (mountComposed storage key defaultValue deserialize serialize)

/-- The inline `useSessionState` over a whole stimulus sequence. -/
def runInlineSession (storage : Backend) (key : String) (defaultValue : JSVal)
    (deserialize : String → Option JSVal) (serialize : JSVal → Option String)
    (acts : List Action) : HookState :=
  acts.foldl (stepInlineSession key serialize)
    (mountInline storage key defaultValue deserialize serialize)

/-- A concrete serializer for witnesses: strings tagged `S`, `null` to
`"null"`; other values throw. -/
def serW : JSVal → Option String
  | .str s => some ("S" ++ s)
  | .null => some "null"
  | _ => none

/-- A concrete deserializer for witnesses, a left inverse of `serW` on
its domain; it throws on `""` and on unrecognised input. -/
def deserW (s : String) : Option JSVal :=
  if s = "null" then some JSVal.null
  else
    match s.data with
    | 'S' :: rest => some (JSVal.str (String.mk rest))
    | _ => none

/-- A concrete total deserializer for counterexamples: it succeeds on
every input, the empty string included. -/
def deserTotal (s : String) : Option JSVal :=
  some (JSVal.str s)

/-- A concrete always-throwing serializer for witnesses. -/
def serFail : JSVal → Option String :=
  fun _ => none

/-! ### Helper lemmas about the backend -/

/-- After `removeItem`, `getItem` on the same key finds nothing. -/
theorem getItem_removeItem_self (b : Backend) (k : String) :
    getItem (removeItem b k) k = none := by
  unfold getItem removeItem
  have h : (List.filter (fun p => p.1 != k) b).find? (fun p => p.1 == k) = none := by
    rw [List.find?_eq_none]
    intro p hp
    have h2 := (List.mem_filter.mp hp).2
    simp only [bne_iff_ne, ne_eq] at h2
    simp [h2]
  rw [h]

/-- After `setItem`, `getItem` on the same key finds the written string. -/
theorem getItem_setItem_self (b : Backend) (k s : String) :
    getItem (setItem b k s) k = some s := by
  unfold getItem setItem
  simp [List.find?]

/-! ### Equivalence of the inline bodies and the shared helpers -/

/-- The inline update body equals `calculateNewValue` + `updateStorage`. -/
theorem updateValueInline_eq (value : UpdateReq) (stored : JSVal) (storage : Backend)
    (key : String) (serialize : JSVal → Option String) :
    updateValueInline value stored storage key serialize
      = updateValue value stored storage key serialize := by
  cases value with
  | fn callback =>
    cases hc : callback stored with
    | none =>
      simp [updateValueInline, updateValue, calculateNewValue, hc]
    | some nv =>
      simp only [updateValueInline, updateValue, calculateNewValue, hc]
      rfl
  | val v =>
    cases ht : truthy v with
    | false =>
      simp only [updateValueInline, updateValue, calculateNewValue, ht]
      rfl
    | true =>
      simp only [updateValueInline, updateValue, calculateNewValue, ht]
      rfl

/-- The inline initial-load closure equals the shared `setInitialValue`. -/
theorem setInitialValueInline_eq (storage : Backend) (key : String)
    (defaultValue : JSVal) (deserialize : String → Option JSVal)
    (serialize : JSVal → Option String) :
    setInitialValueInline storage key defaultValue deserialize serialize
      = setInitialValue storage key defaultValue deserialize serialize := by
  unfold setInitialValueInline setInitialValue initDefaultStep
  cases hg : getItem storage key with
  | none => rfl
  | some item =>
    by_cases hi : item ≠ ""
    · simp only [if_pos hi]
    · simp only [if_neg hi]

/-- The inline storage-event handler equals the shared one. -/
theorem handleStorageChangeInline_eq (key : String)
    (deserialize : String → Option JSVal) (stored : JSVal) (event : StorageEvent) :
    handleStorageChangeInline key deserialize stored event
      = handleStorageChange key deserialize stored event := rfl

/-! ### Claim theorems -/

/-- C1 (counterexample): the claim is false on the default-persistence
path of the initial load.  With no existing record and the empty-string
default, `defaultValue !== undefined` holds, so `setInitialValue`
persists `serialize("")` (here `"S"`) as a record instead of removing the
key, and adopts `""`, not `null`, as the current value. -/
theorem C1_counterexample :
    (setInitialValue [] "k" (JSVal.str "") deserTotal serW).backend = [("k", "S")] ∧
    getItem (setInitialValue [] "k" (JSVal.str "") deserTotal serW).backend "k"
      = some "S" ∧
    (setInitialValue [] "k" (JSVal.str "") deserTotal serW).stored = JSVal.str "" :=
  ⟨rfl, rfl, rfl⟩

/-- C1 (amended): on every update path an empty value (`null`,
`undefined`, `""`) is never persisted — whether it arrives as a literal
(coerced to `null` by `calculateNewValue`) or as the computed value
handed to `updateStorage` — the key is removed and the current value set
to `null`, leaving the backend with no record for the key.  The
initial-load default path, by contrast, persists any
defined default through `serialize`, empty ones included. -/
theorem C1_empty_update_removes (storage : Backend) (stored : JSVal) (key : String)
    (serialize : JSVal → Option String) (v nv : JSVal)
    (hv : v = JSVal.null ∨ v = JSVal.undef ∨ v = JSVal.str "")
    (hnv : nv = JSVal.null ∨ nv = JSVal.undef ∨ nv = JSVal.str "") :
    updateValue (.val v) stored storage key serialize
      = some ⟨removeItem storage key, JSVal.null, 0⟩ ∧
    updateStorage storage nv key stored serialize
      = ⟨removeItem storage key, JSVal.null, 0⟩ ∧
    getItem (removeItem storage key) key = none := by
  rcases hv with rfl | rfl | rfl <;> rcases hnv with rfl | rfl | rfl <;>
    exact ⟨rfl, rfl, getItem_removeItem_self storage key⟩

/-- C1 (witness): `update(null)` on a backend holding a record for the
key removes the record and sets the current value to `null`; the same
for the computed value `""`. -/
theorem C1_empty_update_removes_witness :
    updateValue (.val JSVal.null) (JSVal.str "x") [("k", "Sx")] "k" serW
      = some ⟨[], JSVal.null, 0⟩ ∧
    updateStorage [("k", "Sx")] (JSVal.str "") "k" (JSVal.str "x") serW
      = ⟨[], JSVal.null, 0⟩ ∧
    getItem ([] : Backend) "k" = none :=
  C1_empty_update_removes [("k", "Sx")] (JSVal.str "x") "k" serW
    JSVal.null (JSVal.str "") (Or.inl rfl) (Or.inr (Or.inr rfl))

/-- C2: a non-function falsy request (`null`, `undefined`, `0`, `""`,
`false`, `NaN` — exactly the values with `truthy v = false`) is coerced
to `null` by `calculateNewValue` and then causes key removal in the
update path; a truthy non-function request is adopted as-is. -/
theorem C2_falsy_coerced_truthy_adopted (storage : Backend) (stored prev : JSVal)
    (key : String) (serialize : JSVal → Option String) (v : JSVal) :
    (truthy v = false →
      calculateNewValue (.val v) prev = some JSVal.null ∧
      updateValue (.val v) stored storage key serialize
        = some ⟨removeItem storage key, JSVal.null, 0⟩ ∧
      getItem (removeItem storage key) key = none) ∧
    (truthy v = true → calculateNewValue (.val v) prev = some v) := by
  constructor
  · intro h
    refine ⟨?_, ?_, getItem_removeItem_self storage key⟩
    · simp [calculateNewValue, h]
    · simp [updateValue, calculateNewValue, h, updateStorage, isEmptyVal]
  · intro h
    simp [calculateNewValue, h]

/-- C2 (witness): the literal number `0` and the literal `false` are
coerced to `null` and remove the key; the literal `5` is adopted. -/
theorem C2_witness :
    calculateNewValue (.val (JSVal.num 0)) JSVal.null = some JSVal.null ∧
    updateValue (.val (JSVal.bool false)) (JSVal.num 3) [("k", "N3")] "k" serW
      = some ⟨[], JSVal.null, 0⟩ ∧
    calculateNewValue (.val (JSVal.num 5)) JSVal.null = some (JSVal.num 5) :=
  ⟨((C2_falsy_coerced_truthy_adopted [] JSVal.null JSVal.null "k" serW
      (JSVal.num 0)).1 rfl).1,
   ((C2_falsy_coerced_truthy_adopted [("k", "N3")] (JSVal.num 3) JSVal.null "k" serW
      (JSVal.bool false)).1 rfl).2.1,
   (C2_falsy_coerced_truthy_adopted [] JSVal.null JSVal.null "k" serW
      (JSVal.num 5)).2 rfl⟩

/-- C3: when the computed value is non-empty and its serialization
throws, the update is aborted atomically: the backend and the in-memory
value are returned exactly as they were, one diagnostic is emitted, and
the update call still returns normally (`some`, no exception). -/
theorem C3_serialize_failure_aborts (storage : Backend) (stored : JSVal)
    (key : String) (serialize : JSVal → Option String) (value : UpdateReq)
    (nv : JSVal)
    (hcalc : calculateNewValue value stored = some nv)
    (hne : isEmptyVal nv = false)
    (hser : serialize nv = none) :
    updateStorage storage nv key stored serialize = ⟨storage, stored, 1⟩ ∧
    updateValue value stored storage key serialize = some ⟨storage, stored, 1⟩ := by
  have h1 : updateStorage storage nv key stored serialize = ⟨storage, stored, 1⟩ := by
    simp [updateStorage, hne, hser]
  exact ⟨h1, by simp [updateValue, hcalc, h1]⟩

/-- C3 (witness): updating to the number `1` under an always-throwing
serializer leaves the backend record and the stored value untouched and
emits one diagnostic. -/
theorem C3_serialize_failure_aborts_witness :
    updateStorage [("k", "old")] (JSVal.num 1) "k" (JSVal.str "p") serFail
      = ⟨[("k", "old")], JSVal.str "p", 1⟩ ∧
    updateValue (.val (JSVal.num 1)) (JSVal.str "p") [("k", "old")] "k" serFail
      = some ⟨[("k", "old")], JSVal.str "p", 1⟩ :=
  C3_serialize_failure_aborts [("k", "old")] (JSVal.str "p") "k" serFail
    (.val (JSVal.num 1)) (JSVal.num 1) rfl rfl rfl

/-- C4 (counterexample): an updater callback that throws is not caught
anywhere on the update path — `calculateNewValue` invokes it outside any
try block — so the exception (modelled by `none`) escapes the binding to
the consumer, refuting "no error escapes as a thrown exception". -/
theorem C4_counterexample :
    updateValue (.fn (fun _ => none)) JSVal.null [] "k" serW = none := rfl

/-- C4 (amended): an exception escapes an update call if and only if the
consumer-supplied updater callback itself throws; every other failure
(serializer throwing, on any path) is caught, and the load and
storage-event paths are total. -/
theorem C4_error_escape_iff_updater_throws (storage : Backend) (stored : JSVal)
    (key : String) (serialize : JSVal → Option String) (value : UpdateReq) :
    (updateValue value stored storage key serialize = none ↔
      ∃ callback, value = .fn callback ∧ callback stored = none) ∧
    (updateValueInline value stored storage key serialize = none ↔
      ∃ callback, value = .fn callback ∧ callback stored = none) := by
  have h : updateValue value stored storage key serialize = none ↔
      ∃ callback, value = .fn callback ∧ callback stored = none := by
    cases value with
    | fn callback =>
      cases hc : callback stored with
      | none =>
        simp only [updateValue, calculateNewValue, hc]
        exact ⟨fun _ => ⟨callback, rfl, hc⟩, fun _ => trivial⟩
      | some nv =>
        simp only [updateValue, calculateNewValue, hc]
        constructor
        · intro hfalse
          exact absurd hfalse (by simp)
        · rintro ⟨cb, hcb, hnone⟩
          cases hcb
          rw [hc] at hnone
          exact absurd hnone (by simp)
    | val v =>
      have hs : updateValue (.val v) stored storage key serialize
          = some (updateStorage storage (if truthy v then v else JSVal.null)
              key stored serialize) := by
        by_cases ht : truthy v = true
        · simp only [updateValue, calculateNewValue, if_pos ht]
        · simp only [updateValue, calculateNewValue, if_neg ht]
      rw [hs]
      constructor
      · intro hfalse
        exact absurd hfalse (by simp)
      · rintro ⟨cb, hcb, -⟩
        exact absurd hcb (by simp)
  exact ⟨h, by rw [updateValueInline_eq]; exact h⟩

/-- C5 (counterexample): the claim is false for an empty-string record.
`""` exists under the key and fails to deserialize (`deserW "" = none`),
yet `if (item)` is falsy on `""`, so the load neither removes the record
nor emits a diagnostic — with no default it leaves the corrupt record in
place and adopts `null`. -/
theorem C5_counterexample :
    getItem [("k", "")] "k" = some "" ∧
    deserW "" = none ∧
    setInitialValue [("k", "")] "k" JSVal.undef deserW serW
      = ⟨[("k", "")], JSVal.null, true, 0⟩ := by
  refine ⟨rfl, by decide, rfl⟩

/-- C5 (amended): for every existing non-empty record that fails to
deserialize, the load removes the corrupt record, emits one diagnostic,
and falls through to the default path: with a defined default whose
serialization succeeds, the default is persisted and adopted, so the
record afterwards equals `serialize(default)`.  Conversely a usable
(non-empty, deserializable) record means the backend is left untouched,
so the default is persisted exactly when no usable record was found. -/
theorem C5_corrupt_record_recovery (storage : Backend) (key : String)
    (defaultValue : JSVal) (deserialize : String → Option JSVal)
    (serialize : JSVal → Option String) (r s : String) (v : JSVal) :
    (getItem storage key = some r → r ≠ "" → deserialize r = none →
      defaultValue ≠ JSVal.undef → serialize defaultValue = some s →
      setInitialValue storage key defaultValue deserialize serialize
        = ⟨setItem (removeItem storage key) key s, defaultValue, true, 1⟩ ∧
      getItem (setItem (removeItem storage key) key s) key = some s) ∧
    (getItem storage key = some r → r ≠ "" → deserialize r = some v →
      (setInitialValue storage key defaultValue deserialize serialize).backend
        = storage) := by
  constructor
  · intro hit hne hbad hdv hser
    refine ⟨?_, getItem_setItem_self (removeItem storage key) key s⟩
    simp [setInitialValue, hit, hne, hbad, initDefaultStep, hdv, hser]
  · intro hit hne hok
    simp [setInitialValue, hit, hne, hok]

/-- C5 (witness): the unparseable record `"Z"` with default `"d"` is
replaced by `serialize("d") = "Sd"` with one diagnostic; the usable
record `"Sa"` leaves the backend untouched. -/
theorem C5_corrupt_record_recovery_witness :
    (setInitialValue [("k", "Z")] "k" (JSVal.str "d") deserW serW
      = ⟨[("k", "Sd")], JSVal.str "d", true, 1⟩ ∧
     getItem [("k", "Sd")] "k" = some "Sd") ∧
    (setInitialValue [("k", "Sa")] "k" (JSVal.str "d") deserW serW).backend
      = [("k", "Sa")] :=
  ⟨(C5_corrupt_record_recovery [("k", "Z")] "k" (JSVal.str "d") deserW serW
      "Z" "Sd" JSVal.null).1 rfl (by decide) (by decide) (by decide) rfl,
   (C5_corrupt_record_recovery [("k", "Sa")] "k" (JSVal.str "d") deserW serW
      "Sa" "Sd" (JSVal.str "a")).2 rfl (by decide) (by decide)⟩

/-- C6 (counterexample): the claim is false for an empty-string record.
`""` is an existing record that deserializes successfully under
`deserTotal` (to the value `""`), yet the load ignores it — `if (item)`
is falsy — adopts the default `"d"` instead of `deserialize("")`, and
overwrites the record with `serialize("d")`. -/
theorem C6_counterexample :
    getItem [("k", "")] "k" = some "" ∧
    deserTotal "" = some (JSVal.str "") ∧
    setInitialValue [("k", "")] "k" (JSVal.str "d") deserTotal serW
      = ⟨[("k", "Sd")], JSVal.str "d", true, 0⟩ ∧
    JSVal.str "d" ≠ JSVal.str "" := by
  refine ⟨rfl, rfl, rfl, by decide⟩

/-- C6 (amended): for every existing non-empty record `r` that
deserializes successfully, the load adopts `deserialize(r)`, performs no
write or removal (the backend is returned unchanged, zero diagnostics),
and the provided default is ignored entirely (the result does not depend
on `defaultValue`, which is universally quantified). -/
theorem C6_wellformed_record_adopted (storage : Backend) (key : String)
    (defaultValue : JSVal) (deserialize : String → Option JSVal)
    (serialize : JSVal → Option String) (r : String) (v : JSVal)
    (hit : getItem storage key = some r) (hne : r ≠ "")
    (hok : deserialize r = some v) :
    setInitialValue storage key defaultValue deserialize serialize
      = ⟨storage, v, true, 0⟩ := by
  simp [setInitialValue, hit, hne, hok]

/-- C6 (witness): the record `"Sa"` is adopted as the value `"a"`, the
backend is unchanged, and the default `"d"` is ignored. -/
theorem C6_wellformed_record_adopted_witness :
    setInitialValue [("k", "Sa")] "k" (JSVal.str "d") deserW serW
      = ⟨[("k", "Sa")], JSVal.str "a", true, 0⟩ :=
  C6_wellformed_record_adopted [("k", "Sa")] "k" (JSVal.str "d") deserW serW
    "Sa" (JSVal.str "a") rfl (by decide) (by decide)

/-- C7 (counterexample): the claim is false for an empty-string
notification value.  `newValue = ""` is present, not absent, and
deserializes successfully under `deserTotal` (to the value `""`), yet
the handler evaluates `event.newValue ? … : null` and assigns `null`
without deserializing. -/
theorem C7_counterexample :
    deserTotal "" = some (JSVal.str "") ∧
    handleStorageChange "k" deserTotal (JSVal.num 7) ⟨some "k", some ""⟩
      = (JSVal.null, 0) ∧
    JSVal.null ≠ JSVal.str "" := by
  refine ⟨rfl, rfl, by decide⟩

/-- C7 (amended): on a matching notification the handler deserializes a
present non-empty raw value and assigns it directly (an absent or
empty-string raw value maps to `null`); a deserialization failure only
emits a diagnostic and leaves the value unchanged; notifications for
other keys change nothing; and the event path never writes to or removes
from the backend. -/
theorem C7_storage_event_handling (key : String)
    (deserialize : String → Option JSVal) (stored : JSVal)
    (event : StorageEvent) (s : String) (v : JSVal) :
    (event.key = some key → event.newValue = some s → s ≠ "" →
      deserialize s = some v →
      handleStorageChange key deserialize stored event = (v, 0)) ∧
    (event.key = some key → event.newValue = some s → s ≠ "" →
      deserialize s = none →
      handleStorageChange key deserialize stored event = (stored, 1)) ∧
    (event.key = some key → (event.newValue = none ∨ event.newValue = some "") →
      handleStorageChange key deserialize stored event = (JSVal.null, 0)) ∧
    (event.key ≠ some key →
      handleStorageChange key deserialize stored event = (stored, 0)) ∧
    (∀ (st : HookState) (dser : String → Option JSVal)
       (ser : JSVal → Option String),
      (stepComposedLocal key dser ser st (.ev event)).backend = st.backend) := by
  refine ⟨?_, ?_, ?_, ?_, ?_⟩
  · intro hk hnv hne hok
    simp [handleStorageChange, hk, hnv, hne, hok]
  · intro hk hnv hne hbad
    simp [handleStorageChange, hk, hnv, hne, hbad]
  · intro hk hnv
    rcases hnv with hnv | hnv <;> simp [handleStorageChange, hk, hnv]
  · intro hk
    simp [handleStorageChange, hk]
  · intro st dser ser
    rfl

/-- C7 (witness): a matching notification carrying `"Sa"` is adopted as
`"a"`; one carrying unparseable `"Z"` only warns; an absent value maps
to `null`; a notification for another key changes nothing; the backend
component is untouched by an event step. -/
theorem C7_storage_event_handling_witness :
    handleStorageChange "k" deserW (JSVal.num 7) ⟨some "k", some "Sa"⟩
      = (JSVal.str "a", 0) ∧
    handleStorageChange "k" deserW (JSVal.num 7) ⟨some "k", some "Z"⟩
      = (JSVal.num 7, 1) ∧
    handleStorageChange "k" deserW (JSVal.num 7) ⟨some "k", none⟩
      = (JSVal.null, 0) ∧
    handleStorageChange "k" deserW (JSVal.num 7) ⟨some "j", some "Sa"⟩
      = (JSVal.num 7, 0) ∧
    (stepComposedLocal "k" deserW serW ⟨[("k", "N7")], JSVal.num 7, false, 0⟩
      (.ev ⟨some "k", some "Sa"⟩)).backend = [("k", "N7")] :=
  ⟨(C7_storage_event_handling "k" deserW (JSVal.num 7) ⟨some "k", some "Sa"⟩
      "Sa" (JSVal.str "a")).1 rfl rfl (by decide) (by decide),
   (C7_storage_event_handling "k" deserW (JSVal.num 7) ⟨some "k", some "Z"⟩
      "Z" JSVal.null).2.1 rfl rfl (by decide) (by decide),
   (C7_storage_event_handling "k" deserW (JSVal.num 7) ⟨some "k", none⟩
      "" JSVal.null).2.2.1 rfl (Or.inl rfl),
   (C7_storage_event_handling "k" deserW (JSVal.num 7) ⟨some "j", some "Sa"⟩
      "" JSVal.null).2.2.2.1 (by decide),
   (C7_storage_event_handling "k" deserW (JSVal.num 7) ⟨some "k", some "Sa"⟩
      "" JSVal.null).2.2.2.2 ⟨[("k", "N7")], JSVal.num 7, false, 0⟩ deserW serW⟩

/-- C8: round-trip law.  If the computed value of an update is non-empty,
its serialization succeeds, and the configured deserializer inverts the
serializer at that value, then immediately after the update the backend
record for the key deserializes back to exactly that value. -/
theorem C8_roundtrip (storage : Backend) (stored : JSVal) (key : String)
    (serialize : JSVal → Option String) (deserialize : String → Option JSVal)
    (value : UpdateReq) (v : JSVal) (s : String)
    (hcalc : calculateNewValue value stored = some v)
    (hne : isEmptyVal v = false)
    (hser : serialize v = some s)
    (hinv : deserialize s = some v) :
    updateValue value stored storage key serialize
      = some ⟨setItem storage key s, v, 0⟩ ∧
    getItem (setItem storage key s) key = some s ∧
    deserialize s = some v := by
  refine ⟨?_, getItem_setItem_self storage key s, hinv⟩
  simp [updateValue, hcalc, updateStorage, hne, hser]

/-- C8 (witness): `update("a")` under the pair `serW`/`deserW` leaves a
record `"Sa"` that deserializes back to `"a"`. -/
theorem C8_roundtrip_witness :
    updateValue (.val (JSVal.str "a")) JSVal.null [] "k" serW
      = some ⟨[("k", "Sa")], JSVal.str "a", 0⟩ ∧
    getItem [("k", "Sa")] "k" = some "Sa" ∧
    deserW "Sa" = some (JSVal.str "a") :=
  C8_roundtrip [] JSVal.null "k" serW deserW (.val (JSVal.str "a"))
    (JSVal.str "a") "Sa" (by decide) (by decide) (by decide) (by decide)

/-- C9: the initial-load routine reports `resolved = true` on every
control path — any backend, key, default, and serializer/deserializer
pair, failing ones included — so after mount `setLoading(!isValueSet)`
makes the loading flag `false` unconditionally, in both hook variants;
no input produces a permanently loading state. -/
theorem C9_always_resolved (storage : Backend) (key : String)
    (defaultValue : JSVal) (deserialize : String → Option JSVal)
    (serialize : JSVal → Option String) :
    (setInitialValue storage key defaultValue deserialize serialize).resolved
      = true ∧
    (mountComposed storage key defaultValue deserialize serialize).loading
      = false ∧
    (mountInline storage key defaultValue deserialize serialize).loading
      = false := by
  have hd : ∀ (b : Backend) (w : Nat),
      (initDefaultStep b key defaultValue serialize w).resolved = true := by
    intro b w
    unfold initDefaultStep
    by_cases h : defaultValue ≠ JSVal.undef
    · simp only [if_pos h]
      cases serialize defaultValue <;> rfl
    · simp only [if_neg h]
  have hmain :
      (setInitialValue storage key defaultValue deserialize serialize).resolved
        = true := by
    unfold setInitialValue
    cases hg : getItem storage key with
    | none => exact hd storage 0
    | some item =>
      by_cases hi : item ≠ ""
      · simp only [if_pos hi]
        cases hdi : deserialize item with
        | some v => rfl
        | none => exact hd (removeItem storage key) 1
      · simp only [if_neg hi]
        exact hd storage 0
  refine ⟨hmain, ?_, ?_⟩
  · simp [mountComposed, hmain]
  · simp [mountInline, setInitialValueInline_eq, hmain]

/-- C10: the inline hook implementations and the refactored ones built
from the shared helpers are behaviourally equivalent — for every
backend, key, default, serializer/deserializer pair, and sequence of
update calls and storage events, both the local-storage and the
session-storage variants produce the same backend, current value,
loading flag, and diagnostics count after the whole run. -/
theorem C10_inline_composed_equivalent (storage : Backend) (key : String)
    (defaultValue : JSVal) (deserialize : String → Option JSVal)
    (serialize : JSVal → Option String) (acts : List Action) :
    runInlineLocal storage key defaultValue deserialize serialize acts
      = runComposedLocal storage key defaultValue deserialize serialize acts ∧
    runInlineSession storage key defaultValue deserialize serialize acts
      = runComposedSession storage key defaultValue deserialize serialize acts := by
  have hm : mountInline storage key defaultValue deserialize serialize
      = mountComposed storage key defaultValue deserialize serialize := by
    unfold mountInline mountComposed
    rw [setInitialValueInline_eq]
  have hsl : stepInlineLocal key deserialize serialize
      = stepComposedLocal key deserialize serialize := by
    funext st a
    cases a with
    | upd value =>
      simp only [stepInlineLocal, stepComposedLocal, updateValueInline_eq]
    | ev event =>
      simp only [stepInlineLocal, stepComposedLocal, handleStorageChangeInline_eq]
  have hss : stepInlineSession key serialize = stepComposedSession key serialize := by
    funext st a
    cases a with
    | upd value =>
      simp only [stepInlineSession, stepComposedSession, updateValueInline_eq]
    | ev event => rfl
  constructor
  · unfold runInlineLocal runComposedLocal
    rw [hm, hsl]
  · unfold runInlineSession runComposedSession
    rw [hm, hss]

end ReactSessionHooks
